import Mathlib

/-
  Verification of the chain response aggregator and SSE event notifier
  (src/mcp_agent/server/response_aggregator.py).

  The Python module is embedded shallowly: the aggregator object becomes a
  structure, each method becomes a pure function returning the updated state,
  the Python dict of agent responses becomes an association list with
  dict update semantics (replace in place on an existing key, append on a
  new key), and Python ints become Int. Response payloads are opaque and
  modelled by a type parameter.
-/

variable {α : Type}

/-- Association list model of a Python dict keyed by strings: assigning to an
existing key replaces its value in place, a new key is appended at the end,
so keys stay unique and insertion order is preserved. -/
def dictInsert (k : String) (v : α) : List (String × α) → List (String × α)
  | [] => [(k, v)]
  | (p, w) :: rest => if p = k then (p, v) :: rest else (p, w) :: dictInsert k v rest

/-- Lookup in the association list model of a Python dict. -/
def dictGet (k : String) : List (String × α) → Option α
  | [] => none
  | (p, w) :: rest => if p = k then some w else dictGet k rest

/-- State of ChainResponseAggregator: chain_name, total_agents,
agent_responses, completed_agents and the private _response_sent flag. -/
structure ChainResponseAggregator (α : Type) where
  chain_name : String
  total_agents : Int
  agent_responses : List (String × α)
  completed_agents : Int
  _response_sent : Bool
  deriving DecidableEq, Repr

/-- Embedding of ChainResponseAggregator.__init__: every argument is stored
unchanged, the response map starts empty, the counter at zero and the
sent flag false. No validation of total_agents is performed. -/
def ChainResponseAggregator.init (chain_name : String) (total_agents : Int) :
    ChainResponseAggregator α :=
  { chain_name := chain_name
    total_agents := total_agents
    agent_responses := []
    completed_agents := 0
    _response_sent := false }

/-- Embedding of add_agent_response: store the response under the agent name
and increment completed_agents. -/
def ChainResponseAggregator.add_agent_response (agg : ChainResponseAggregator α)
    (agent_name : String) (response : α) : ChainResponseAggregator α :=
  { agg with
    agent_responses := dictInsert agent_name response agg.agent_responses
    completed_agents := agg.completed_agents + 1 }

/-- Embedding of should_send_response:
not self._response_sent and self.completed_agents >= self.total_agents. -/
def ChainResponseAggregator.should_send_response (agg : ChainResponseAggregator α) : Bool :=
  !agg._response_sent && decide (agg.completed_agents ≥ agg.total_agents)

/-- The dict returned by get_aggregated_response:
keys "chain" and "responses". -/
structure AggregatedResponse (α : Type) where
  chain : String
  responses : List (String × α)
  deriving DecidableEq, Repr

/-- Embedding of get_aggregated_response: sets _response_sent to True and
returns the chain name together with the current response map. The updated
state is returned alongside the result. -/
def ChainResponseAggregator.get_aggregated_response (agg : ChainResponseAggregator α) :
    ChainResponseAggregator α × AggregatedResponse α :=
  ({ agg with _response_sent := true },
   { chain := agg.chain_name, responses := agg.agent_responses })

/-- Fold a list of (agent_name, response) recordings through
add_agent_response. -/
def ChainResponseAggregator.recordMany (agg : ChainResponseAggregator α)
    (recs : List (String × α)) : ChainResponseAggregator α :=
  recs.foldl (fun s r => s.add_agent_response r.1 r.2) agg

/-- The three operations a caller can perform on a live aggregator. -/
inductive AggOp (α : Type) where
  | record (agent_name : String) (response : α)
  | query
  | consume

/-- Apply one operation to the aggregator state: record mutates the map and
counter, the readiness query is pure, consume sets the sent flag. -/
def ChainResponseAggregator.applyOp (agg : ChainResponseAggregator α) :
    AggOp α → ChainResponseAggregator α
  | .record n r => agg.add_agent_response n r
  | .query => agg
  | .consume => agg.get_aggregated_response.1

/-- Run a sequence of operations from a given state; states of the form
(init name total).runOps ops are exactly the reachable states. -/
def ChainResponseAggregator.runOps (agg : ChainResponseAggregator α)
    (ops : List (AggOp α)) : ChainResponseAggregator α :=
  ops.foldl ChainResponseAggregator.applyOp agg

/-- Number of distinct keys present in the response map. Since the map never
deletes, these are exactly the distinct keys ever inserted. -/
def ChainResponseAggregator.distinctKeyCount [DecidableEq α]
    (agg : ChainResponseAggregator α) : Nat :=
  (agg.agent_responses.map Prod.fst).dedup.length

/-- Embedding of the SSEEventType enum. -/
inductive SSEEventType where
  | AGENT_START
  | AGENT_PROGRESS
  | AGENT_COMPLETE
  | CHAIN_COMPLETE
  | ERROR
  deriving DecidableEq, Repr

/-- The string value carried by each SSEEventType member. -/
def SSEEventType.value : SSEEventType → String
  | .AGENT_START => "agent_start"
  | .AGENT_PROGRESS => "agent_progress"
  | .AGENT_COMPLETE => "agent_complete"
  | .CHAIN_COMPLETE => "chain_complete"
  | .ERROR => "error"

/-- The dict passed to stream.send: keys "event" and "data". -/
structure SSEMessage (α : Type) where
  event : String
  data : α
  deriving DecidableEq, Repr

/-- Model of the stream argument: hasSend models hasattr(stream, "send"),
and sent records every message the stream has received, in order. An absent
stream (None) is modelled as the none case of Option. -/
structure SSEStream (α : Type) where
  hasSend : Bool
  sent : List (SSEMessage α)
  deriving DecidableEq, Repr

/-- Embedding of send_sse_event: if the stream is present and has a send
capability, append one message with the event string and the data;
otherwise do nothing. The function is total, so it always returns. -/
def send_sse_event (event_type : SSEEventType) (data : α)
    (stream : Option (SSEStream α)) : Option (SSEStream α) :=
  match stream with
  | none => none
  | some s =>
      if s.hasSend then
        some { s with sent := s.sent ++ [{ event := event_type.value, data := data }] }
      else
        some s

/- ------------------------- helper lemmas ------------------------- -/

theorem dictGet_dictInsert_self (k : String) (v : α) :
    ∀ d : List (String × α), dictGet k (dictInsert k v d) = some v := by
  intro d
  induction d with
  | nil => simp [dictInsert, dictGet]
  | cons p rest ih =>
      by_cases h : p.1 = k
      · simp [dictInsert, dictGet, h]
      · simp [dictInsert, dictGet, h, ih]

theorem dictGet_dictInsert_ne (q k : String) (v : α) (hqk : q ≠ k) :
    ∀ d : List (String × α), dictGet q (dictInsert k v d) = dictGet q d := by
  have hkq : ¬ k = q := fun h => hqk h.symm
  intro d
  induction d with
  | nil => simp [dictInsert, dictGet, hkq]
  | cons p rest ih =>
      obtain ⟨a, b⟩ := p
      by_cases h : a = k
      · subst h
        simp [dictInsert, dictGet, hkq]
      · simp [dictInsert, dictGet, h, ih]

theorem keys_dictInsert_notMem (k : String) (v : α) :
    ∀ d : List (String × α), k ∉ d.map Prod.fst →
      (dictInsert k v d).map Prod.fst = d.map Prod.fst ++ [k] := by
  intro d
  induction d with
  | nil => simp [dictInsert]
  | cons p rest ih =>
      intro hmem
      have hne : ¬ p.1 = k := by
        intro h
        exact hmem (by simp [h])
      have hrest : k ∉ rest.map Prod.fst := by
        intro h
        exact hmem (by simp [h])
      simp [dictInsert, hne, ih hrest]

theorem recordMany_cons (s : ChainResponseAggregator α) (r : String × α)
    (recs : List (String × α)) :
    s.recordMany (r :: recs) = (s.add_agent_response r.1 r.2).recordMany recs := rfl

theorem recordMany_response_sent (recs : List (String × α)) :
    ∀ s : ChainResponseAggregator α,
      (s.recordMany recs)._response_sent = s._response_sent := by
  induction recs with
  | nil => intro s; rfl
  | cons r rest ih => intro s; exact ih (s.add_agent_response r.1 r.2)

theorem recordMany_chain_name (recs : List (String × α)) :
    ∀ s : ChainResponseAggregator α,
      (s.recordMany recs).chain_name = s.chain_name := by
  induction recs with
  | nil => intro s; rfl
  | cons r rest ih => intro s; exact ih (s.add_agent_response r.1 r.2)

theorem recordMany_total_agents (recs : List (String × α)) :
    ∀ s : ChainResponseAggregator α,
      (s.recordMany recs).total_agents = s.total_agents := by
  induction recs with
  | nil => intro s; rfl
  | cons r rest ih => intro s; exact ih (s.add_agent_response r.1 r.2)

theorem recordMany_completed_agents (recs : List (String × α)) :
    ∀ s : ChainResponseAggregator α,
      (s.recordMany recs).completed_agents = s.completed_agents + recs.length := by
  induction recs with
  | nil => intro s; simp [ChainResponseAggregator.recordMany]
  | cons r rest ih =>
      intro s
      rw [recordMany_cons]
      rw [ih (s.add_agent_response r.1 r.2)]
      show s.completed_agents + 1 + (rest.length : Int) = s.completed_agents + (rest.length + 1 : Nat)
      push_cast
      ring

theorem recordMany_keys_of_nodup (recs : List (String × α)) :
    ∀ s : ChainResponseAggregator α,
      (s.agent_responses.map Prod.fst ++ recs.map Prod.fst).Nodup →
      (s.recordMany recs).agent_responses.map Prod.fst
        = s.agent_responses.map Prod.fst ++ recs.map Prod.fst := by
  induction recs with
  | nil => intro s _; simp [ChainResponseAggregator.recordMany]
  | cons r rest ih =>
      intro s hnd
      rw [recordMany_cons]
      have hsplit := List.nodup_append.mp (by simpa using hnd)
      have hkmem : r.1 ∈ (r.1 :: rest.map Prod.fst) := by simp
      have hknot : r.1 ∉ s.agent_responses.map Prod.fst := fun hin =>
        hsplit.2.2 hin hkmem
      have hkeys : (s.add_agent_response r.1 r.2).agent_responses.map Prod.fst
          = s.agent_responses.map Prod.fst ++ [r.1] :=
        keys_dictInsert_notMem r.1 r.2 s.agent_responses hknot
      have hnd2 : ((s.add_agent_response r.1 r.2).agent_responses.map Prod.fst
          ++ rest.map Prod.fst).Nodup := by
        rw [hkeys, List.append_assoc]
        simpa using hnd
      rw [ih (s.add_agent_response r.1 r.2) hnd2, hkeys]
      simp

theorem should_send_response_iff (s : ChainResponseAggregator α) :
    s.should_send_response = true ↔
      (s._response_sent = false ∧ s.total_agents ≤ s.completed_agents) := by
  simp [ChainResponseAggregator.should_send_response, ge_iff_le]

theorem applyOp_sent_mono (s : ChainResponseAggregator α) (op : AggOp α)
    (h : s._response_sent = true) : (s.applyOp op)._response_sent = true := by
  cases op with
  | record n r => exact h
  | query => exact h
  | consume => rfl

/- ------------------------- claim theorems ------------------------- -/

/-- Claim C1: in every reachable aggregator state, should_send_response
returns true if and only if the response has not been sent and the number of
completions is at least total_agents (comparison by at-least, not equality). -/
theorem claim1_ready_iff (name : String) (t : Int) (ops : List (AggOp α)) :
    ((ChainResponseAggregator.init name t).runOps ops).should_send_response = true ↔
      ((((ChainResponseAggregator.init name t).runOps ops))._response_sent = false ∧
       ((ChainResponseAggregator.init name t).runOps ops).total_agents ≤
         ((ChainResponseAggregator.init name t).runOps ops).completed_agents) :=
  should_send_response_iff _

/-- Claim C2: get_aggregated_response unconditionally sets the sent flag,
returns the chain name with the full current response map, and a second call
after further recordings returns the map as it stands then, with the flag
still true. -/
theorem claim2_consume (s : ChainResponseAggregator α) :
    s.get_aggregated_response.1._response_sent = true ∧
    s.get_aggregated_response.2.chain = s.chain_name ∧
    s.get_aggregated_response.2.responses = s.agent_responses ∧
    ∀ recs : List (String × α),
      ((s.get_aggregated_response.1.recordMany recs).get_aggregated_response).2.chain
        = s.chain_name ∧
      ((s.get_aggregated_response.1.recordMany recs).get_aggregated_response).2.responses
        = (s.get_aggregated_response.1.recordMany recs).agent_responses ∧
      ((s.get_aggregated_response.1.recordMany recs).get_aggregated_response).1._response_sent
        = true := by
  refine ⟨rfl, rfl, rfl, fun recs => ⟨?_, rfl, rfl⟩⟩
  exact recordMany_chain_name recs s.get_aggregated_response.1

/-- Claim C3: for N at least 1 and N recordings with pairwise distinct agent
names against an aggregator built with total_agents = N and never consumed,
should_send_response is false after fewer than N recordings and true after
the N-th. -/
theorem claim3_threshold (name : String) (N : Nat) (hN : 1 ≤ N)
    (recs : List (String × α)) (hlen : recs.length = N)
    (hdist : (recs.map Prod.fst).Nodup) :
    (∀ k : Nat, k < N →
      ((ChainResponseAggregator.init name (N : Int)).recordMany
        (recs.take k)).should_send_response = false) ∧
    ((ChainResponseAggregator.init name (N : Int)).recordMany
        recs).should_send_response = true := by
  constructor
  · intro k hk
    have hsent : ((ChainResponseAggregator.init name (N : Int) :
        ChainResponseAggregator α).recordMany (recs.take k))._response_sent = false := by
      rw [recordMany_response_sent]
      rfl
    have htot : ((ChainResponseAggregator.init name (N : Int) :
        ChainResponseAggregator α).recordMany (recs.take k)).total_agents = (N : Int) := by
      rw [recordMany_total_agents]
      rfl
    have htk : (recs.take k).length = k := by
      rw [List.length_take, hlen]
      omega
    have hcomp : ((ChainResponseAggregator.init name (N : Int) :
        ChainResponseAggregator α).recordMany (recs.take k)).completed_agents
        = (k : Int) := by
      rw [recordMany_completed_agents, htk]
      show (0 : Int) + (k : Int) = (k : Int)
      ring
    simp only [ChainResponseAggregator.should_send_response, hsent, htot, hcomp]
    simp only [Bool.not_false, Bool.true_and, ge_iff_le, decide_eq_false_iff_not,
      Int.not_le]
    exact_mod_cast hk
  · have hsent : ((ChainResponseAggregator.init name (N : Int) :
        ChainResponseAggregator α).recordMany recs)._response_sent = false := by
      rw [recordMany_response_sent]
      rfl
    have htot : ((ChainResponseAggregator.init name (N : Int) :
        ChainResponseAggregator α).recordMany recs).total_agents = (N : Int) := by
      rw [recordMany_total_agents]
      rfl
    have hcomp : ((ChainResponseAggregator.init name (N : Int) :
        ChainResponseAggregator α).recordMany recs).completed_agents = (N : Int) := by
      rw [recordMany_completed_agents, hlen]
      show (0 : Int) + (N : Int) = (N : Int)
      ring
    simp only [ChainResponseAggregator.should_send_response, hsent, htot, hcomp]
    simp

/-- Witness for claim C3 at the concrete scenario from the tests: chain with
total_agents = 2, recordings a1 and a2; not ready after the first recording,
ready after both. -/
theorem claim3_witness :
    ((ChainResponseAggregator.init "chain" (2 : Int) :
        ChainResponseAggregator String).recordMany
      ([("a1", "one"), ("a2", "two")].take 1)).should_send_response = false ∧
    ((ChainResponseAggregator.init "chain" (2 : Int) :
        ChainResponseAggregator String).recordMany
      [("a1", "one"), ("a2", "two")]).should_send_response = true :=
  ⟨(claim3_threshold "chain" 2 (by decide) [("a1", "one"), ("a2", "two")] (by decide)
      (by decide)).1 1 (by decide),
   (claim3_threshold "chain" 2 (by decide) [("a1", "one"), ("a2", "two")] (by decide)
      (by decide)).2⟩

/-- Claim C4 counterexample: recording the same agent name twice yields
completed_agents = 2 while only one distinct key was ever inserted, so the
counter does not equal the number of distinct keys. -/
theorem claim4_counterexample :
    ¬ ((((ChainResponseAggregator.init "chain" (2 : Int) :
          ChainResponseAggregator String).add_agent_response "a1"
            "one").add_agent_response "a1" "two").completed_agents
        = ((((ChainResponseAggregator.init "chain" (2 : Int) :
          ChainResponseAggregator String).add_agent_response "a1"
            "one").add_agent_response "a1" "two").distinctKeyCount : Int)) := by
  decide

/-- Claim C4 amended: after any sequence of record calls, completed_agents
equals the total number of record calls made; it equals the number of
distinct keys in the response map when the recorded agent names are pairwise
distinct. -/
theorem claim4_counter [DecidableEq α] (name : String) (t : Int)
    (recs : List (String × α)) :
    ((ChainResponseAggregator.init name t).recordMany recs).completed_agents
      = (recs.length : Int) ∧
    ((recs.map Prod.fst).Nodup →
      (((ChainResponseAggregator.init name t).recordMany recs).distinctKeyCount : Int)
        = (recs.length : Int)) := by
  constructor
  · rw [recordMany_completed_agents recs (ChainResponseAggregator.init name t)]
    simp [ChainResponseAggregator.init]
  · intro hnd
    have hkeys := recordMany_keys_of_nodup recs
      (ChainResponseAggregator.init name t : ChainResponseAggregator α)
      (by simpa [ChainResponseAggregator.init] using hnd)
    simp only [ChainResponseAggregator.distinctKeyCount, hkeys]
    simp [ChainResponseAggregator.init, List.Nodup.dedup hnd]

/-- Witness for the amended claim C4: two distinct recordings give a counter
of 2 and 2 distinct keys. -/
theorem claim4_witness :
    ((ChainResponseAggregator.init "c" (2 : Int) :
        ChainResponseAggregator String).recordMany
      [("a1", "one"), ("a2", "two")]).completed_agents = (2 : Int) ∧
    (((ChainResponseAggregator.init "c" (2 : Int) :
        ChainResponseAggregator String).recordMany
      [("a1", "one"), ("a2", "two")]).distinctKeyCount : Int) = (2 : Int) :=
  ⟨(claim4_counter "c" 2 [("a1", "one"), ("a2", "two")]).1,
   (claim4_counter "c" 2 [("a1", "one"), ("a2", "two")]).2 (by decide)⟩

/-- Claim C5 counterexample: construction with total_agents = 0 is not
rejected; it produces the fully defined state with empty map, zero counter
and unsent flag, and should_send_response on it is defined (and true). -/
theorem claim5_counterexample :
    (ChainResponseAggregator.init "chain" (0 : Int) : ChainResponseAggregator String)
      = { chain_name := "chain", total_agents := 0, agent_responses := [],
          completed_agents := 0, _response_sent := false } ∧
    (ChainResponseAggregator.init "chain" (0 : Int) :
        ChainResponseAggregator String).should_send_response = true :=
  ⟨rfl, rfl⟩

/-- Claim C5 amended: the constructor performs no validation; any
total_agents, including values at most 0, is accepted and stored unchanged,
and the resulting aggregator has well-defined behavior: should_send_response
is true immediately. -/
theorem claim5_no_validation (name : String) (t : Int) (h : t ≤ 0) :
    (ChainResponseAggregator.init name t : ChainResponseAggregator α).total_agents = t ∧
    (ChainResponseAggregator.init name t : ChainResponseAggregator α).chain_name = name ∧
    (ChainResponseAggregator.init name t :
        ChainResponseAggregator α).should_send_response = true := by
  refine ⟨rfl, rfl, ?_⟩
  simp [ChainResponseAggregator.init, ChainResponseAggregator.should_send_response]
  omega

/-- Witness for the amended claim C5 at total_agents = -1. -/
theorem claim5_witness :
    (ChainResponseAggregator.init "c" (-1 : Int) :
        ChainResponseAggregator String).total_agents = (-1 : Int) ∧
    (ChainResponseAggregator.init "c" (-1 : Int) :
        ChainResponseAggregator String).chain_name = "c" ∧
    (ChainResponseAggregator.init "c" (-1 : Int) :
        ChainResponseAggregator String).should_send_response = true :=
  claim5_no_validation "c" (-1) (by decide)

/-- Claim C6: once the sent flag is true, no sequence of record, query or
consume operations ever makes it false again. -/
theorem claim6_latch (s : ChainResponseAggregator α) (ops : List (AggOp α))
    (h : s._response_sent = true) : (s.runOps ops)._response_sent = true := by
  induction ops generalizing s with
  | nil => exact h
  | cons op rest ih => exact ih (s.applyOp op) (applyOp_sent_mono s op h)

/-- Witness for claim C6: after consuming a fresh aggregator, a further
record, query and consume leave the flag true. -/
theorem claim6_witness :
    (((ChainResponseAggregator.init "c" (1 : Int) :
        ChainResponseAggregator String).get_aggregated_response.1).runOps
      [AggOp.record "a" "x", AggOp.query, AggOp.consume])._response_sent = true :=
  claim6_latch
    ((ChainResponseAggregator.init "c" (1 : Int) :
        ChainResponseAggregator String).get_aggregated_response.1)
    [AggOp.record "a" "x", AggOp.query, AggOp.consume] rfl

/-- Claim C7: add_agent_response is total and its entire effect is to store
the given response under the given agent name (other keys unchanged) and to
increment completed_agents by one, leaving chain_name, total_agents and the
sent flag unchanged. -/
theorem claim7_record (s : ChainResponseAggregator α) (agent_name : String)
    (response : α) :
    dictGet agent_name (s.add_agent_response agent_name response).agent_responses
      = some response ∧
    (∀ k : String, k ≠ agent_name →
      dictGet k (s.add_agent_response agent_name response).agent_responses
        = dictGet k s.agent_responses) ∧
    (s.add_agent_response agent_name response).completed_agents
      = s.completed_agents + 1 ∧
    (s.add_agent_response agent_name response).chain_name = s.chain_name ∧
    (s.add_agent_response agent_name response).total_agents = s.total_agents ∧
    (s.add_agent_response agent_name response)._response_sent = s._response_sent :=
  ⟨dictGet_dictInsert_self agent_name response s.agent_responses,
   fun k hk => dictGet_dictInsert_ne k agent_name response hk s.agent_responses,
   rfl, rfl, rfl, rfl⟩

/-- Witness for claim C7: recording b then a; looking up a finds the new
response, looking up b is unchanged, the counter went from 1 to 2 and the
other fields are untouched. -/
theorem claim7_witness :
    dictGet "a" ((((ChainResponseAggregator.init "c" (2 : Int) :
        ChainResponseAggregator String).add_agent_response "b"
          "y").add_agent_response "a" "x").agent_responses) = some "x" ∧
    dictGet "b" ((((ChainResponseAggregator.init "c" (2 : Int) :
        ChainResponseAggregator String).add_agent_response "b"
          "y").add_agent_response "a" "x").agent_responses)
      = dictGet "b" (((ChainResponseAggregator.init "c" (2 : Int) :
        ChainResponseAggregator String).add_agent_response "b"
          "y").agent_responses) ∧
    (((ChainResponseAggregator.init "c" (2 : Int) :
        ChainResponseAggregator String).add_agent_response "b"
          "y").add_agent_response "a" "x").completed_agents
      = ((ChainResponseAggregator.init "c" (2 : Int) :
        ChainResponseAggregator String).add_agent_response "b"
          "y").completed_agents + 1 ∧
    (((ChainResponseAggregator.init "c" (2 : Int) :
        ChainResponseAggregator String).add_agent_response "b"
          "y").add_agent_response "a" "x")._response_sent = false :=
  ⟨(claim7_record (((ChainResponseAggregator.init "c" (2 : Int) :
        ChainResponseAggregator String).add_agent_response "b" "y")) "a" "x").1,
   (claim7_record (((ChainResponseAggregator.init "c" (2 : Int) :
        ChainResponseAggregator String).add_agent_response "b" "y")) "a" "x").2.1
      "b" (by decide),
   (claim7_record (((ChainResponseAggregator.init "c" (2 : Int) :
        ChainResponseAggregator String).add_agent_response "b" "y")) "a" "x").2.2.1,
   (claim7_record (((ChainResponseAggregator.init "c" (2 : Int) :
        ChainResponseAggregator String).add_agent_response "b" "y")) "a" "x").2.2.2.2.2⟩

/-- Claim C8: with a present stream that has the send capability,
send_sse_event delivers exactly one message consisting of the event string
and the data, and the five event kinds map to agent_start, agent_progress,
agent_complete, chain_complete and error. -/
theorem claim8_notify (event_type : SSEEventType) (data : α) (s : SSEStream α)
    (h : s.hasSend = true) :
    send_sse_event event_type data (some s)
      = some { s with sent := s.sent ++ [{ event := event_type.value, data := data }] } ∧
    SSEEventType.value .AGENT_START = "agent_start" ∧
    SSEEventType.value .AGENT_PROGRESS = "agent_progress" ∧
    SSEEventType.value .AGENT_COMPLETE = "agent_complete" ∧
    SSEEventType.value .CHAIN_COMPLETE = "chain_complete" ∧
    SSEEventType.value .ERROR = "error" := by
  refine ⟨?_, rfl, rfl, rfl, rfl, rfl⟩
  simp [send_sse_event, h]

/-- Witness for claim C8: the scenario from the tests, sending AGENT_START
with a payload to a capable stream that has received nothing yet. -/
theorem claim8_witness :
    send_sse_event SSEEventType.AGENT_START "bar"
        (some ({ hasSend := true, sent := [] } : SSEStream String))
      = some ({ hasSend := true,
                sent := [{ event := "agent_start", data := "bar" }] } : SSEStream String) :=
  (claim8_notify SSEEventType.AGENT_START "bar"
    ({ hasSend := true, sent := [] } : SSEStream String) rfl).1

/-- Claim C9: for every event type and payload, send_sse_event with an
absent stream returns none unchanged, and with a stream lacking the send
capability returns the stream unchanged; in both cases it returns normally
and no message is delivered. -/
theorem claim9_noop (event_type : SSEEventType) (data : α) :
    send_sse_event event_type data (none : Option (SSEStream α)) = none ∧
    ∀ s : SSEStream α, s.hasSend = false →
      send_sse_event event_type data (some s) = some s := by
  refine ⟨rfl, fun s h => ?_⟩
  simp [send_sse_event, h]

/-- Witness for claim C9 at the ERROR event with a concrete payload: an
absent stream and a non-capable stream are both left unchanged. -/
theorem claim9_witness :
    send_sse_event SSEEventType.ERROR "p" (none : Option (SSEStream String)) = none ∧
    send_sse_event SSEEventType.ERROR "p"
        (some ({ hasSend := false, sent := [] } : SSEStream String))
      = some ({ hasSend := false, sent := [] } : SSEStream String) :=
  ⟨(claim9_noop SSEEventType.ERROR "p").1,
   (claim9_noop SSEEventType.ERROR "p").2
      ({ hasSend := false, sent := [] } : SSEStream String) rfl⟩

/-- Claim C10: an aggregator constructed with total_agents at most 0 reports
should_send_response immediately, before any recording, and
get_aggregated_response then returns the chain name with an empty map. -/
theorem claim10_zero_total (name : String) (t : Int) (h : t ≤ 0) :
    (ChainResponseAggregator.init name t :
        ChainResponseAggregator α).should_send_response = true ∧
    (ChainResponseAggregator.init name t :
        ChainResponseAggregator α).get_aggregated_response.2
      = { chain := name, responses := [] } := by
  refine ⟨?_, rfl⟩
  simp [ChainResponseAggregator.init, ChainResponseAggregator.should_send_response]
  omega

/-- Witness for claim C10 at total_agents = 0. -/
theorem claim10_witness :
    (ChainResponseAggregator.init "c" (0 : Int) :
        ChainResponseAggregator String).should_send_response = true ∧
    (ChainResponseAggregator.init "c" (0 : Int) :
        ChainResponseAggregator String).get_aggregated_response.2
      = { chain := "c", responses := ([] : List (String × String)) } :=
  claim10_zero_total "c" 0 (by decide)
